import Mathlib

/-!
Shallow embedding of `fedora_messaging/twisted/protocol.py`
(class `FedoraMessagingProtocol`).

The protocol instance state (`_channel`, `_running`, `_queues`, together with
the closed flag of the underlying connection and the consumer-tag registry of
the pika channel) is modelled as an explicit record `ProtoState`.  Each method
becomes a function `ProtoState → ProtoState × List Event`, where the event
list records, in order, the broker calls issued and the bookkeeping events
(user handler invoked, stop sequence entered, a read loop spawned, a delivery
dispatched).  External collaborators (the decode and serialize helpers of
`fedora_messaging/_session.py`, the user callback, the broker channel
primitives) are modelled by their outcomes, passed in as parameters.
-/

namespace FedoraMessaging

/-- A broker-facing call issued on the AMQP channel.  Mirrors the pika channel
primitives used by `protocol.py`: `basic_ack`, `basic_nack`, `basic_cancel`,
`basic_consume`, `exchange_declare`, `queue_declare`, `queue_bind`,
`basic_qos`, `confirm_delivery`, `publish`, and closing the connection. -/
inductive BrokerCall where
  | basicAck (deliveryTag : Nat)
  | basicNack (deliveryTag : Nat) (multiple : Bool) (requeue : Bool)
  | basicCancel (consumerTag : String)
  | basicConsume (queue : String)
  | exchangeDeclare (exchange : String) (exchangeType : String) (durable : Bool)
  | queueDeclare (queue : String) (durable : Bool) (autoDelete : Bool)
      (arguments : Option (List (String × String)))
  | queueBind (queue : String) (exchange : String) (routingKey : String)
  | basicQos (prefetchCount : Nat) (prefetchSize : Nat)
  | confirmDelivery
  | channelPublish (exchange : String) (body : List Nat) (routingKey : String)
      (props : List (String × String))
  | close
deriving DecidableEq, Repr

/-- One entry of the trace produced by running a method of the protocol:
either a broker call, or a bookkeeping event (the user callback was invoked,
`stopProducing` was entered, a read loop was spawned for a queue, or
`_on_message` was invoked on a delivery tag). -/
inductive Event where
  | call (c : BrokerCall)
  | handlerInvoked
  | stopCalled
  | readLoopSpawned (queue : String)
  | dispatched (tag : Nat)
deriving DecidableEq, Repr

/-- The broker calls contained in a trace, in order. -/
def calls (es : List Event) : List BrokerCall :=
  es.filterMap fun e =>
    match e with
    | Event.call c => some c
    | _ => none

/-- The queue names of the `basicConsume` calls in a trace, in order. -/
def consumesOf (es : List Event) : List String :=
  es.filterMap fun e =>
    match e with
    | Event.call (BrokerCall.basicConsume q) => some q
    | _ => none

/-- The queue names of the `readLoopSpawned` events in a trace, in order. -/
def spawnsOf (es : List Event) : List String :=
  es.filterMap fun e =>
    match e with
    | Event.readLoopSpawned q => some q
    | _ => none

/-- Whether a broker call is an acknowledgement (`basic_ack` or `basic_nack`)
that covers the given delivery tag.  Per AMQP, `basic_nack` with
`multiple=true` acknowledges every outstanding tag up to and including
`delivery_tag`, and `delivery_tag=0` with `multiple=true` covers every
outstanding delivery. -/
def coversTag (c : BrokerCall) (tag : Nat) : Bool :=
  match c with
  | BrokerCall.basicAck t => t == tag
  | BrokerCall.basicNack t mult _ => if mult then (t == 0 || Nat.ble tag t) else t == tag
  | _ => false

/-- Number of ack or nack calls in a trace that cover the given delivery tag. -/
def ackNackCount (es : List Event) (tag : Nat) : Nat :=
  (calls es).countP fun c => coversTag c tag

/-- The mutable instance state of `FedoraMessagingProtocol` together with the
relevant state of its collaborators:
`channel` is `true` when `self._channel is not None`;
`running` is `self._running`;
`queues` models the set `self._queues` as a deduplicated list in insertion
order;
`callbackSet` is `true` when `self._message_callback` has been assigned;
`implClosed` is `self._impl.is_closed`, the closed flag of the underlying
pika connection;
`consumerTags` models `self._channel.consumer_tags`, the consumer registry
kept by the pika channel. -/
structure ProtoState where
  channel : Bool
  running : Bool
  queues : List String
  callbackSet : Bool
  implClosed : Bool
  consumerTags : List String
deriving DecidableEq, Repr

/-- `self._queues.add q` on the set of queue names, modelled on the
insertion-ordered list. -/
def addQueue (qs : List String) (q : String) : List String :=
  if q ∈ qs then qs else qs ++ [q]

/-- `pauseProducing` (protocol.py lines 244-273).  The method body assigns
`self._running = False`, issues `basic_cancel` for each consumer tag and then
tries to close the consumer queue objects — but the method is not decorated
with `defer.inlineCallbacks` while its body contains `yield` expressions, so
in Python it is a generator function: calling it constructs a generator
object and returns it without executing a single statement of the body.  The
call therefore has no effect on the state and issues no broker calls, which
this definition models faithfully. -/
def pauseProducing (s : ProtoState) : ProtoState × List Event :=
  (s, [])

/-- `stopProducing` (protocol.py lines 275-291): return immediately if
`self._channel is None`; otherwise, if `self._running`, yield
`self.pauseProducing()` (which, the decorator being absent there, yields an
unstarted generator and has no effect); then, unless the underlying
connection is already closed, close it; finally set `self._channel = None`.
The `stopCalled` event marks entry into the method. -/
def stopProducing (s : ProtoState) : ProtoState × List Event :=
  if s.channel = false then (s, [Event.stopCalled])
  else
    let p := if s.running then pauseProducing s else (s, [])
    let c : ProtoState × List Event :=
      if p.1.implClosed = false then
        ({ p.1 with implClosed := true }, [Event.call BrokerCall.close])
      else (p.1, [])
    ({ c.1 with channel := false }, Event.stopCalled :: (p.2 ++ c.2))

/-- `resumeProducing` (protocol.py lines 224-242): set `self._running = True`,
then for every queue name in `self._queues` issue `basic_consume` and spawn
that queue read loop (`self._read(queue_object).addErrback(...)`).  The
consumer tag returned by `basic_consume` is bound but not stored by this
code, so the state is otherwise unchanged.  There is no guard on the current
value of `self._running`. -/
def resumeProducing (s : ProtoState) : ProtoState × List Event :=
  ({ s with running := true },
   s.queues.flatMap fun q =>
     [Event.call (BrokerCall.basicConsume q), Event.readLoopSpawned q])

/-- `connectionReady` (protocol.py lines 62-72): open the channel, set
`basic_qos(prefetch_count=0, prefetch_size=0)`, and enable
`confirm_delivery` exactly when the protocol was constructed with
`confirms=True`. -/
def connectionReady (confirms : Bool) : List Event :=
  Event.call (BrokerCall.basicQos 0 0) ::
    (if confirms then [Event.call BrokerCall.confirmDelivery] else [])

/-- One topology descriptor from `self.factory.bindings`; the optional keys
`queue_auto_delete` (default `False`) and `queue_arguments` (default `None`)
are modelled with default field values, matching `binding.get(...)`. -/
structure Binding where
  exchange : String
  queue_name : String
  routing_key : String
  queue_auto_delete : Bool := false
  queue_arguments : Option (List (String × String)) := none
deriving DecidableEq, Repr

/-- The three broker calls issued for one binding by the loop body of
`setupRead` (protocol.py lines 85-100): declare the exchange as type
`"topic"`, durable; declare the queue (durable, with the binding
auto-delete flag and arguments); bind the broker-assigned final queue name
(`result.method.queue`, supplied here by the oracle `resolve`) to the
exchange with the binding routing key. -/
def bindingCalls (resolve : Binding → String) (b : Binding) : List Event :=
  [Event.call (BrokerCall.exchangeDeclare b.exchange "topic" true),
   Event.call (BrokerCall.queueDeclare b.queue_name true b.queue_auto_delete b.queue_arguments),
   Event.call (BrokerCall.queueBind (resolve b) b.exchange b.routing_key)]

/-- The `for binding in self.factory.bindings` loop of `setupRead`: for each
binding, in order, issue the three declaration calls and add the resolved
queue name to `self._queues`. -/
def setupLoop (resolve : Binding → String) : List Binding → ProtoState → ProtoState × List Event
  | [], s => (s, [])
  | b :: rest, s =>
    let r := setupLoop resolve rest { s with queues := addQueue s.queues (resolve b) }
    (r.1, bindingCalls resolve b ++ r.2)

/-- `setupRead` (protocol.py lines 74-103): if `self.factory.bindings` is
empty, return at once (before `self._message_callback` is assigned);
otherwise record the callback and run the declaration loop.  `resolve` is
the oracle for the broker-assigned final queue name returned by each
`queue_declare`. -/
def setupRead (resolve : Binding → String) (bindings : List Binding) (s : ProtoState) :
    ProtoState × List Event :=
  if bindings.isEmpty then (s, [])
  else setupLoop resolve bindings { s with callbackSet := true }

/-- Outcome of `get_message(routing_key, properties, body)`.
Modelled from the spec: `get_message` is the decode collaborator living in
`fedora_messaging/_session.py`, which is not under src; per the spec it
returns a decoded `Message` (carrying a topic) or raises `ValidationError`. -/
inductive DecodeResult where
  | ok (topic : String)
  | validationError
deriving DecidableEq, Repr

/-- Outcome of invoking the user callback on a decoded message: normal
return, or one of the typed signals `Nack`, `Drop`, `HaltConsumer`
(exceptions imported from `..exceptions`), or any other exception. -/
inductive HandlerOutcome where
  | success
  | nack
  | drop
  | halt
  | fault
deriving DecidableEq, Repr

/-- `_on_message` (protocol.py lines 134-207), dispatching one delivery with
the given delivery tag.  `dec` is the outcome of the decode collaborator and
`h` the outcome the user callback produces when invoked.  Branches:
`ValidationError` → `basic_nack(tag, requeue=False)` and return, the
callback never invoked; otherwise the callback is invoked
(`handlerInvoked`), then `Nack` → `basic_nack(tag, requeue=True)`;
`Drop` → `basic_nack(tag, requeue=False)`; `HaltConsumer` →
`stopProducing` with no ack or nack; any other exception →
`basic_nack(delivery_tag=0, multiple=True, requeue=True)` then
`stopProducing`; normal return → `basic_ack(tag)`.  In pika, `basic_nack`
called without `multiple` defaults it to `False`. -/
def onMessage (dec : DecodeResult) (h : HandlerOutcome) (tag : Nat) (s : ProtoState) :
    ProtoState × List Event :=
  match dec with
  | DecodeResult.validationError =>
      (s, [Event.call (BrokerCall.basicNack tag false false)])
  | DecodeResult.ok _ =>
      match h with
      | HandlerOutcome.success =>
          (s, [Event.handlerInvoked, Event.call (BrokerCall.basicAck tag)])
      | HandlerOutcome.nack =>
          (s, [Event.handlerInvoked, Event.call (BrokerCall.basicNack tag false true)])
      | HandlerOutcome.drop =>
          (s, [Event.handlerInvoked, Event.call (BrokerCall.basicNack tag false false)])
      | HandlerOutcome.halt =>
          let p := stopProducing s
          (p.1, Event.handlerInvoked :: p.2)
      | HandlerOutcome.fault =>
          let p := stopProducing s
          (p.1, Event.handlerInvoked :: Event.call (BrokerCall.basicNack 0 true true) :: p.2)

/-- One delivery pulled from a consumer queue: the frame delivery tag, the
routing key and the payload bytes. -/
structure Delivery where
  deliveryTag : Nat
  routingKey : String
  body : List Nat
deriving DecidableEq, Repr

/-- Outcome of one `queue_object.get()` in `_read`: a delivery, or one of the
exception classes the loop catches (`error.ConnectionDone`,
`pika.exceptions.ChannelClosedByClient`, `pika.exceptions.ChannelClosed`,
`pika.exceptions.ConsumerCancelled`, or any other exception). -/
inductive PullResult where
  | delivery (d : Delivery)
  | connectionDone
  | channelClosedByClient
  | channelClosed
  | consumerCancelled
  | otherError
deriving DecidableEq, Repr

/-- Outcome of `yield self._on_message(...)` for one dispatched delivery:
either the dispatch resolves normally, producing a trace of events, or its
deferred fails (for example a `basic_ack` on a closed channel), raising at
the `yield` in `_read`. -/
inductive DispatchResult where
  | ok (events : List Event)
  | raises
deriving DecidableEq, Repr

/-- One iteration script entry for `_read`: the value of `self._running`
observed at the `while` test, the outcome of `queue_object.get()`, and the
outcome of the dispatch should the delivery be dispatched. -/
structure ReadStep where
  running : Bool
  pull : PullResult
  dispatch : DispatchResult
deriving DecidableEq, Repr

/-- How a run of `_read` terminates: `quiet` when the generator returns
normally (the `while` test fails or a `break` is reached in an `except`
branch), `raised` when an exception propagates out of the loop. -/
inductive ReadTermination where
  | quiet
  | raised
deriving DecidableEq, Repr

/-- `_read` (protocol.py lines 105-132) run against a script of iterations.
Each iteration: test `self._running` (exit quietly when false); pull from
the queue — every exception branch logs and breaks, a quiet exit; on a
delivery, `if body:` skips falsy (empty) bodies without dispatching;
otherwise `_on_message` is invoked (`dispatched` event).  That `yield` is
outside the `try`, so a failing dispatch propagates out of the loop. -/
def readLoop : List ReadStep → ReadTermination × List Event
  | [] => (ReadTermination.quiet, [])
  | st :: rest =>
    if st.running = false then (ReadTermination.quiet, [])
    else
      match st.pull with
      | PullResult.delivery d =>
          if d.body.isEmpty then readLoop rest
          else
            match st.dispatch with
            | DispatchResult.ok es =>
                let r := readLoop rest
                (r.1, (Event.dispatched d.deliveryTag :: es) ++ r.2)
            | DispatchResult.raises =>
                (ReadTermination.raised, [Event.dispatched d.deliveryTag])
      | _ => (ReadTermination.quiet, [])

/-- Serialized form of an outgoing message:
`(body, routing_key, properties)`. -/
structure Serialized where
  body : List Nat
  routingKey : String
  props : List (String × String)
deriving DecidableEq, Repr

/-- An outgoing domain message handed to `publish`. -/
structure OutMessage where
  topic : String
  payload : List Nat
deriving DecidableEq, Repr

/-- Broker response to a publish when the channel is in confirm mode. -/
inductive BrokerConfirm where
  | acked
  | nacked
deriving DecidableEq, Repr

/-- How the deferred returned by `publish` resolves: fired, or failed with
`PublishNotConfirmed`. -/
inductive PublishResult where
  | done
  | publishNotConfirmed
deriving DecidableEq, Repr

/-- Modelled from the spec: the external channel publish primitive
(`self._channel.publish`, owned by the pika transport).  It always issues
one publish call; when the channel is in confirm mode (set up by
`connectionReady`) its completion is gated on the broker confirmation and a
broker nack surfaces as `PublishNotConfirmed`; otherwise it completes once
the call is issued. -/
def channelPublishOp (confirms : Bool) (resp : BrokerConfirm) (exchange : String)
    (sm : Serialized) : PublishResult × List Event :=
  ((if confirms then
      match resp with
      | BrokerConfirm.acked => PublishResult.done
      | BrokerConfirm.nacked => PublishResult.publishNotConfirmed
    else PublishResult.done),
   [Event.call (BrokerCall.channelPublish exchange sm.body sm.routingKey sm.props)])

/-- `publish` (protocol.py lines 209-222): serialize the message with
`get_serialized_message` and issue one publish on the channel.  `ser` stands
for `get_serialized_message`, modelled from the spec (it lives in
`fedora_messaging/_session.py`, not under src): it maps a message to
`(body, routing_key, properties)`. -/
def publish (ser : OutMessage → Serialized) (confirms : Bool) (resp : BrokerConfirm)
    (m : OutMessage) (exchange : String) : PublishResult × List Event :=
  channelPublishOp confirms resp exchange (ser m)

/-- A protocol state in the consuming regime: channel open, `_running` true,
one bound queue and one active consumer tag on the channel. -/
def sConsuming : ProtoState :=
  { channel := true, running := true, queues := ["server.queue.abc"],
    callbackSet := true, implClosed := false, consumerTags := ["ctag0"] }

/-- A freshly connected protocol state: channel open, not running, no queue
bound yet. -/
def sInit : ProtoState :=
  { channel := true, running := false, queues := [], callbackSet := false,
    implClosed := false, consumerTags := [] }

/-- The binding of the spec scenario: empty queue name, so the final name is
server-generated. -/
def bindingScenario : Binding :=
  { exchange := "amq.topic", queue_name := "", routing_key := "test.#" }

/-- A concrete broker name-resolution oracle: an empty declared queue name
gets a server-generated one, any other name is echoed back. -/
def resolveW : Binding → String :=
  fun b => if b.queue_name = "" then "amq.gen-9A7f" else b.queue_name

/-- A concrete serializer instance for `publish`. -/
def serW : OutMessage → Serialized :=
  fun m => { body := m.payload, routingKey := m.topic, props := [] }

/- ------------------------------------------------------------------ -/
/- Helper lemmas                                                       -/
/- ------------------------------------------------------------------ -/

theorem calls_append (a b : List Event) : calls (a ++ b) = calls a ++ calls b := by
  simp [calls, List.filterMap_append]

/-- The trace of `stopProducing` is entry marker alone, or entry marker plus
the connection close; in particular it contains no ack and no nack. -/
theorem stop_events (s : ProtoState) :
    (stopProducing s).2 = [Event.stopCalled] ∨
    (stopProducing s).2 = [Event.stopCalled, Event.call BrokerCall.close] := by
  simp only [stopProducing, pauseProducing]
  split_ifs <;> simp

/-- `stopProducing` issues no ack or nack covering any delivery tag. -/
theorem stop_ackNack (s : ProtoState) (tag : Nat) :
    ackNackCount (stopProducing s).2 tag = 0 := by
  rcases stop_events s with h | h <;> rw [ackNackCount, h] <;> rfl

/-- After `stopProducing`, the channel field is cleared. -/
theorem stop_channel_false (s : ProtoState) : (stopProducing s).1.channel = false := by
  simp only [stopProducing, pauseProducing]
  split_ifs with h1 h2 <;> simp_all

/-- On a state whose channel is absent, `stopProducing` only records its
entry and changes nothing. -/
theorem stop_noop_of_channel_false (s : ProtoState) (h : s.channel = false) :
    stopProducing s = (s, [Event.stopCalled]) := by
  simp [stopProducing, h]

/- ------------------------------------------------------------------ -/
/- Claim theorems                                                      -/
/- ------------------------------------------------------------------ -/

/-- C1 counterexample: on the `HaltConsumer` outcome, `_on_message` issues no
ack and no nack at all for the delivery tag (here tag 7, dispatched in a
consuming state), refuting the claim that exactly one acknowledgement call
is issued on every handler outcome. -/
theorem c1_counterexample :
    ackNackCount (onMessage (DecodeResult.ok "t") HandlerOutcome.halt 7 sConsuming).2 7 = 0 ∧
    ¬ ackNackCount (onMessage (DecodeResult.ok "t") HandlerOutcome.halt 7 sConsuming).2 7 = 1 := by
  decide

/-- C1 (amended): for every delivery processed by `_on_message`, exactly one
broker acknowledgement call covering its delivery tag is issued on every
handler outcome except `HaltConsumer` — normal return, `Nack`, `Drop`,
unanticipated fault, and decode/validation failure; on `HaltConsumer` no ack
or nack is issued and the stop sequence is invoked instead. -/
theorem c1_amended (dec : DecodeResult) (h : HandlerOutcome) (tag : Nat) (s : ProtoState) :
    ackNackCount (onMessage dec h tag s).2 tag =
      (match dec, h with
       | DecodeResult.validationError, _ => 1
       | DecodeResult.ok _, HandlerOutcome.halt => 0
       | DecodeResult.ok _, _ => 1) := by
  rcases stop_events s with hs | hs <;>
    cases dec <;> cases h <;>
      simp [onMessage, hs, ackNackCount, calls, coversTag]

/-- C2 counterexample: when the handler raises an unanticipated fault on the
delivery with tag 5, the dispatcher does not issue a nack with
`delivery_tag=5`; the cumulative nack it issues carries `delivery_tag=0`. -/
theorem c2_counterexample :
    Event.call (BrokerCall.basicNack 5 true true)
      ∉ (onMessage (DecodeResult.ok "t") HandlerOutcome.fault 5 sConsuming).2 ∧
    Event.call (BrokerCall.basicNack 0 true true)
      ∈ (onMessage (DecodeResult.ok "t") HandlerOutcome.fault 5 sConsuming).2 := by
  decide

/-- C2 (amended): when the user handler raises an unanticipated fault on a
delivery, the dispatcher issues a single cumulative nack call with
`delivery_tag=0, multiple=true, requeue=true` — which per AMQP covers all
outstanding deliveries up to and including the faulting one — and then
invokes the full stop sequence (`stopProducing`). -/
theorem c2_amended (topic : String) (tag : Nat) (s : ProtoState) :
    onMessage (DecodeResult.ok topic) HandlerOutcome.fault tag s
      = ((stopProducing s).1,
         Event.handlerInvoked :: Event.call (BrokerCall.basicNack 0 true true)
           :: (stopProducing s).2) ∧
    ackNackCount (onMessage (DecodeResult.ok topic) HandlerOutcome.fault tag s).2 tag = 1 ∧
    Event.stopCalled ∈ (onMessage (DecodeResult.ok topic) HandlerOutcome.fault tag s).2 := by
  refine ⟨rfl, ?_, ?_⟩
  · rcases stop_events s with hs | hs <;>
      simp [onMessage, hs, ackNackCount, calls, coversTag]
  · rcases stop_events s with hs | hs <;> simp [onMessage, hs]

/-- C3 (code bug): evaluated at a consuming state with an open channel and an
active consumer tag, `pauseProducing` performs no broker call and leaves the
state untouched — the method body never executes because the function is a
generator (its `yield` statements without the `defer.inlineCallbacks`
decorator), so the claimed cancel-and-close behaviour never happens. -/
theorem c3_pause_is_inert :
    pauseProducing sConsuming = (sConsuming, []) ∧
    sConsuming.running = true ∧
    sConsuming.consumerTags ≠ [] := by
  refine ⟨rfl, rfl, by decide⟩

/-- C4: `stopProducing` is idempotent — after one call has completed the
channel field is cleared (Stopped), and a second call performs no broker
call and leaves the state exactly as the first call left it. -/
theorem c4_stop_idempotent (s : ProtoState) :
    (stopProducing (stopProducing s).1).1 = (stopProducing s).1 ∧
    calls (stopProducing (stopProducing s).1).2 = [] ∧
    (stopProducing s).1.channel = false := by
  have hch : (stopProducing s).1.channel = false := stop_channel_false s
  have h2 : stopProducing (stopProducing s).1 = ((stopProducing s).1, [Event.stopCalled]) :=
    stop_noop_of_channel_false _ hch
  rw [h2]
  exact ⟨rfl, rfl, hch⟩

/-- For any queue list, the consume calls of the `resumeProducing` trace are
exactly those queues, in order. -/
theorem consumesOf_resume (qs : List String) :
    consumesOf (qs.flatMap fun q =>
      [Event.call (BrokerCall.basicConsume q), Event.readLoopSpawned q]) = qs := by
  induction qs with
  | nil => rfl
  | cons q rest ih =>
      simp only [List.flatMap_cons, consumesOf, List.filterMap_append] at *
      simp [ih]

/-- For any queue list, the spawned read loops of the `resumeProducing` trace
are exactly those queues, in order. -/
theorem spawnsOf_resume (qs : List String) :
    spawnsOf (qs.flatMap fun q =>
      [Event.call (BrokerCall.basicConsume q), Event.readLoopSpawned q]) = qs := by
  induction qs with
  | nil => rfl
  | cons q rest ih =>
      simp only [List.flatMap_cons, spawnsOf, List.filterMap_append] at *
      simp [ih]

/-- C5 counterexample: in a state that is already consuming
(`running = true`), `resumeProducing` is not a no-op — it issues a
`basic_consume` for the bound queue again. -/
theorem c5_counterexample :
    sConsuming.running = true ∧
    calls (resumeProducing sConsuming).2 ≠ [] ∧
    BrokerCall.basicConsume "server.queue.abc" ∈ calls (resumeProducing sConsuming).2 := by
  decide

/-- C5 (amended): `resumeProducing` sets `running`, issues exactly one
`basic_consume` per bound queue and spawns exactly one read loop per bound
queue, in the order of the bound queues — from any state, including when
already consuming: it has no guard on `running`, so a repeated call issues
duplicate consume requests. -/
theorem c5_amended (s : ProtoState) :
    (resumeProducing s).1 = { s with running := true } ∧
    consumesOf (resumeProducing s).2 = s.queues ∧
    spawnsOf (resumeProducing s).2 = s.queues :=
  ⟨rfl, consumesOf_resume s.queues, spawnsOf_resume s.queues⟩

/-- The broker calls of the declaration loop are, per binding in the order
given: exchange declare (topic, durable), queue declare (durable, with the
binding flags), queue bind of the resolved name. -/
theorem setupLoop_calls (resolve : Binding → String) (bs : List Binding) :
    ∀ s : ProtoState,
      calls (setupLoop resolve bs s).2
        = bs.flatMap (fun b =>
            [BrokerCall.exchangeDeclare b.exchange "topic" true,
             BrokerCall.queueDeclare b.queue_name true b.queue_auto_delete b.queue_arguments,
             BrokerCall.queueBind (resolve b) b.exchange b.routing_key]) := by
  induction bs with
  | nil => intro s; rfl
  | cons b rest ih =>
      intro s
      simp only [setupLoop, List.flatMap_cons]
      rw [calls_append, ih]
      rfl

/-- The declaration loop records exactly the resolved queue names, folded
into the queue set in order. -/
theorem setupLoop_queues (resolve : Binding → String) (bs : List Binding) :
    ∀ s : ProtoState,
      (setupLoop resolve bs s).1.queues
        = bs.foldl (fun qs b => addQueue qs (resolve b)) s.queues := by
  induction bs with
  | nil => intro s; rfl
  | cons b rest ih =>
      intro s
      simp only [setupLoop, List.foldl_cons]
      exact ih _

/-- C7: `setupRead` processes the bindings strictly in the order given — for
each binding it declares the exchange as type `"topic"`, durable, then
declares the queue with the binding auto-delete flag and arguments, then
binds the broker-resolved final queue name with the binding routing key —
and it records exactly the resolved names in the queue set; when the
bindings sequence is empty it performs no broker call, changes nothing, and
no read loop is ever started. -/
theorem c7_declare_bindings (resolve : Binding → String) (bs : List Binding) (s : ProtoState) :
    calls (setupRead resolve bs s).2
      = bs.flatMap (fun b =>
          [BrokerCall.exchangeDeclare b.exchange "topic" true,
           BrokerCall.queueDeclare b.queue_name true b.queue_auto_delete b.queue_arguments,
           BrokerCall.queueBind (resolve b) b.exchange b.routing_key]) ∧
    (setupRead resolve bs s).1.queues
      = bs.foldl (fun qs b => addQueue qs (resolve b)) s.queues ∧
    (bs = [] → setupRead resolve bs s = (s, [])) ∧
    (bs = [] → s.queues = [] →
      spawnsOf (resumeProducing (setupRead resolve bs s).1).2 = []) := by
  refine ⟨?_, ?_, ?_, ?_⟩
  · cases bs with
    | nil => rfl
    | cons b rest =>
        simpa [setupRead] using setupLoop_calls resolve (b :: rest) { s with callbackSet := true }
  · cases bs with
    | nil => rfl
    | cons b rest =>
        simpa [setupRead] using setupLoop_queues resolve (b :: rest) { s with callbackSet := true }
  · intro hbs; subst hbs; rfl
  · intro hbs hq; subst hbs
    simp [setupRead, resumeProducing, hq, spawnsOf]

/-- C7 witness: at the scenario binding (empty declared queue name) the three
calls are issued with the server-generated name bound, and at the empty
bindings list nothing is called and no read loop is spawned. -/
theorem c7_witness :
    calls (setupRead resolveW [bindingScenario] sInit).2
      = [BrokerCall.exchangeDeclare "amq.topic" "topic" true,
         BrokerCall.queueDeclare "" true false none,
         BrokerCall.queueBind "amq.gen-9A7f" "amq.topic" "test.#"] ∧
    setupRead resolveW [] sInit = (sInit, []) ∧
    spawnsOf (resumeProducing (setupRead resolveW [] sInit).1).2 = [] := by
  refine ⟨?_,
    (c7_declare_bindings resolveW [] sInit).2.2.1 rfl,
    (c7_declare_bindings resolveW [] sInit).2.2.2 rfl rfl⟩
  rw [(c7_declare_bindings resolveW [bindingScenario] sInit).1]
  rfl

/-- C6: for a delivery whose body fails decode/validation, the user handler
is never invoked, exactly one `basic_nack` with `requeue=false` is issued for
its delivery tag, and the read loop continues past such a delivery —
its termination is whatever the remaining iterations produce. -/
theorem c6_validation_nackdrop (h : HandlerOutcome) (tag : Nat) (s : ProtoState)
    (d : Delivery) (rest : List ReadStep) (hd : d.body ≠ []) :
    onMessage DecodeResult.validationError h tag s
      = (s, [Event.call (BrokerCall.basicNack tag false false)]) ∧
    Event.handlerInvoked ∉ (onMessage DecodeResult.validationError h tag s).2 ∧
    (readLoop
      ({ running := true, pull := PullResult.delivery d,
         dispatch := DispatchResult.ok
           (onMessage DecodeResult.validationError h tag s).2 } :: rest)).1
      = (readLoop rest).1 := by
  refine ⟨rfl, by simp [onMessage], ?_⟩
  cases hb : d.body with
  | nil => exact absurd hb hd
  | cons a as => simp [readLoop, hb]

/-- C6 witness: a concrete validation failure at tag 4 in a consuming state,
inside a one-step read loop pulling a delivery with a nonempty body. -/
theorem c6_witness :
    (Delivery.mk 4 "topic.c" [1, 2]).body ≠ [] ∧
    (onMessage DecodeResult.validationError HandlerOutcome.success 4 sConsuming
       = (sConsuming, [Event.call (BrokerCall.basicNack 4 false false)]) ∧
     Event.handlerInvoked
       ∉ (onMessage DecodeResult.validationError HandlerOutcome.success 4 sConsuming).2 ∧
     (readLoop
       [{ running := true, pull := PullResult.delivery ⟨4, "topic.c", [1, 2]⟩,
          dispatch := DispatchResult.ok
            (onMessage DecodeResult.validationError HandlerOutcome.success 4 sConsuming).2 }]).1
       = (readLoop []).1) :=
  ⟨by decide,
   c6_validation_nackdrop HandlerOutcome.success 4 sConsuming ⟨4, "topic.c", [1, 2]⟩ [] (by decide)⟩

/-- C8: `publish` serializes the message and issues exactly one publish call
on the channel with the serialized body, routing key and properties; with
confirms off the deferred fires regardless of the broker response, with
confirms on it fires exactly when the broker confirms and fails with
`PublishNotConfirmed` when the broker nacks; `connectionReady` puts the
channel into confirm mode exactly when `confirms` is set. -/
theorem c8_publish (ser : OutMessage → Serialized) (confirms : Bool) (resp : BrokerConfirm)
    (m : OutMessage) (exchange : String) :
    calls (publish ser confirms resp m exchange).2
      = [BrokerCall.channelPublish exchange (ser m).body (ser m).routingKey (ser m).props] ∧
    (confirms = false → (publish ser confirms resp m exchange).1 = PublishResult.done) ∧
    (confirms = true →
      ((publish ser confirms resp m exchange).1 = PublishResult.done
        ↔ resp = BrokerConfirm.acked)) ∧
    (confirms = true → resp = BrokerConfirm.nacked →
      (publish ser confirms resp m exchange).1 = PublishResult.publishNotConfirmed) ∧
    ((Event.call BrokerCall.confirmDelivery ∈ connectionReady confirms) ↔ confirms = true) := by
  cases confirms <;> cases resp <;>
    simp [publish, channelPublishOp, calls, connectionReady]

/-- C8 witness: a concrete message published on `"amq.topic"`; with confirms
on and a broker nack the result is `PublishNotConfirmed`, with confirms off
it is fired at once; exactly one publish call is issued. -/
theorem c8_witness :
    calls (publish serW true BrokerConfirm.nacked ⟨"t.p", [7]⟩ "amq.topic").2
      = [BrokerCall.channelPublish "amq.topic" [7] "t.p" []] ∧
    (publish serW true BrokerConfirm.nacked ⟨"t.p", [7]⟩ "amq.topic").1
      = PublishResult.publishNotConfirmed ∧
    (publish serW false BrokerConfirm.acked ⟨"t.p", [7]⟩ "amq.topic").1
      = PublishResult.done :=
  ⟨(c8_publish serW true BrokerConfirm.nacked ⟨"t.p", [7]⟩ "amq.topic").1,
   (c8_publish serW true BrokerConfirm.nacked ⟨"t.p", [7]⟩ "amq.topic").2.2.2.1 rfl rfl,
   (c8_publish serW false BrokerConfirm.acked ⟨"t.p", [7]⟩ "amq.topic").2.1 rfl⟩

/-- C9 counterexample: a failure raised while dispatching a pulled delivery
(the dispatch outcome `raises`) is not caught inside the read loop — the
loop terminates by propagating the exception, not with a quiet return. -/
theorem c9_counterexample :
    (readLoop [{ running := true, pull := PullResult.delivery ⟨3, "topic.a", [1]⟩,
                 dispatch := DispatchResult.raises }]).1 ≠ ReadTermination.quiet := by
  decide

/-- C9 (amended): every failure while pulling the next delivery (connection
done, channel closed by client, channel closed by broker, consumer
cancelled, or any other exception) is caught inside the read loop and the
loop terminates with a quiet return — when no dispatch raises, the loop
always terminates quietly; but a failure raised while dispatching a pulled
delivery is not caught inside the loop: it propagates out of the read loop
(the caller attaches an errback that logs it). -/
theorem c9_amended :
    (∀ steps : List ReadStep,
       (∀ st ∈ steps, st.dispatch ≠ DispatchResult.raises) →
       (readLoop steps).1 = ReadTermination.quiet) ∧
    (∀ (d : Delivery) (rest : List ReadStep), d.body ≠ [] →
       (readLoop ({ running := true, pull := PullResult.delivery d,
                    dispatch := DispatchResult.raises } :: rest)).1
         = ReadTermination.raised) := by
  constructor
  · intro steps h
    induction steps with
    | nil => rfl
    | cons st rest ih =>
        have hst : st.dispatch ≠ DispatchResult.raises := h st (List.mem_cons_self st rest)
        have hrest : ∀ u ∈ rest, u.dispatch ≠ DispatchResult.raises :=
          fun u hu => h u (List.mem_cons_of_mem st hu)
        simp only [readLoop]
        split
        · rfl
        · cases hp : st.pull with
          | delivery d =>
              by_cases hb : d.body.isEmpty
              · simp [hb, ih hrest]
              · cases hdp : st.dispatch with
                | ok es => simp [hb, hdp, ih hrest]
                | raises => exact absurd hdp hst
          | connectionDone => rfl
          | channelClosedByClient => rfl
          | channelClosed => rfl
          | consumerCancelled => rfl
          | otherError => rfl
  · intro d rest hd
    cases hb : d.body with
    | nil => exact absurd hb hd
    | cons a as => simp [readLoop, hb]

/-- C9 witness: a broker-side channel closure while pulling terminates the
loop quietly, and a raising dispatch of a pulled nonempty delivery
terminates it by propagation. -/
theorem c9_witness :
    (readLoop [{ running := true, pull := PullResult.channelClosed,
                 dispatch := DispatchResult.ok [] }]).1 = ReadTermination.quiet ∧
    (readLoop [{ running := true, pull := PullResult.delivery ⟨6, "topic.d", [2]⟩,
                 dispatch := DispatchResult.raises }]).1 = ReadTermination.raised :=
  ⟨c9_amended.1 _ (by decide), c9_amended.2 ⟨6, "topic.d", [2]⟩ [] (by decide)⟩

/-- C10: a delivery pulled with an empty (falsy) body is never dispatched —
`_on_message` is not invoked on it, no event at all (in particular no ack or
nack) is produced for it, and the loop silently proceeds with the remaining
iterations exactly as if the delivery had not been pulled. -/
theorem c10_empty_body_skipped (d : Delivery) (dr : DispatchResult) (rest : List ReadStep)
    (hd : d.body = []) :
    readLoop ({ running := true, pull := PullResult.delivery d, dispatch := dr } :: rest)
      = readLoop rest ∧
    (readLoop [{ running := true, pull := PullResult.delivery d, dispatch := dr }]).2 = [] := by
  constructor <;> simp [readLoop, hd]

/-- C10 witness: a concrete empty-body delivery at tag 9 — even with a
raising dispatch outcome scripted, the step contributes nothing and the loop
equals the loop on the remaining script. -/
theorem c10_witness :
    (Delivery.mk 9 "topic.b" []).body = [] ∧
    readLoop [{ running := true, pull := PullResult.delivery ⟨9, "topic.b", []⟩,
                dispatch := DispatchResult.raises }] = readLoop [] :=
  ⟨rfl, (c10_empty_body_skipped ⟨9, "topic.b", []⟩ DispatchResult.raises [] rfl).1⟩

end FedoraMessaging
